import Mathlib

set_option maxHeartbeats 1600000

/-!
Shallow embedding of the authentication, middleware-pipeline and
background-task core of the FastAPI tutorial repository, translated from
`09_authentication.py`, `11_middleware.py` and `12_background_tasks.py`.
Timestamps are modelled as integers (seconds), floating-point progress
values as exact rationals (every progress constant in the source is a
short decimal literal), and in-memory dictionaries as association lists
in insertion order.
-/

/- ## Rate limiting middleware (11_middleware.py, RateLimitMiddleware) -/

/-- Configuration of `RateLimitMiddleware.__init__`: at most `calls`
requests per `period` seconds. -/
structure RateLimitConfig where
  calls : Nat
  period : Int
deriving DecidableEq

/-- Outcome of one `RateLimitMiddleware.dispatch` for a single client:
either the request is passed through (with the `X-RateLimit-Remaining`
header value) or a 429 response carrying `Retry-After` is returned. -/
inductive RateLimitResult where
  | admitted (remaining : Nat)
  | rejected (retryAfter : Int)
deriving DecidableEq

/-- The check-and-append half of `RateLimitMiddleware.dispatch`, acting
on the already-pruned storage: reject with `Retry-After = period` when
`calls <= len(storage)`, otherwise append `now` and admit with
`remaining = calls - len(storage)` (computed after the append). -/
def rateLimitCheck (cfg : RateLimitConfig) (now : Int) (pruned : List Int) :
    RateLimitResult × List Int :=
  if cfg.calls ≤ pruned.length then
    (RateLimitResult.rejected cfg.period, pruned)
  else
    (RateLimitResult.admitted (cfg.calls - (pruned.length + 1)), pruned ++ [now])

/-- One `RateLimitMiddleware.dispatch` step for one client, from
`11_middleware.py` lines 153-190: first drop every stored timestamp at
or before the cutoff `now - period`, then run the check. -/
def rateLimitDispatch (cfg : RateLimitConfig) (now : Int) (storage : List Int) :
    RateLimitResult × List Int :=
  rateLimitCheck cfg now (storage.filter (fun ts => now - cfg.period < ts))

/-- Run a sequence of rate-limit checks for one client, threading the
per-client timestamp storage through `rateLimitDispatch`. -/
def runRateLimit (cfg : RateLimitConfig) (storage : List Int) :
    List Int → List RateLimitResult × List Int
  | [] => ([], storage)
  | now :: rest =>
    ((rateLimitDispatch cfg now storage).1 ::
        (runRateLimit cfg (rateLimitDispatch cfg now storage).2 rest).1,
      (runRateLimit cfg (rateLimitDispatch cfg now storage).2 rest).2)

/-- Spec-side description of the expected check outcomes: with `used`
slots of the window already consumed, the next checks admit (with the
decreasing `remaining` header) until `calls` slots are used, and every
check after that is rejected with `retryAfter = period`. -/
def admitsThenRejects (calls : Nat) (period : Int) (used : Nat) : Nat → List RateLimitResult
  | 0 => []
  | k + 1 =>
    if used < calls then
      RateLimitResult.admitted (calls - (used + 1)) ::
        admitsThenRejects calls period (used + 1) k
    else
      RateLimitResult.rejected period :: admitsThenRejects calls period used k

/- ## Middleware pipeline construction (11_middleware.py, app.add_middleware) -/

/-- The nine middlewares registered on the app in `11_middleware.py`. -/
inductive Middleware where
  | cors
  | gzip
  | trustedHost
  | session
  | timing
  | rateLimit
  | securityHeaders
  | logging
  | auth
deriving DecidableEq

/-- Starlette `app.add_middleware` inserts the new middleware at the
front of the user middleware stack, so the most recently added
middleware is outermost and runs first on the request path. -/
def addMiddleware (m : Middleware) (stack : List Middleware) : List Middleware :=
  m :: stack

/-- The middleware stack built by the nine `app.add_middleware` calls of
`11_middleware.py`, applied in source order (CORS first, Auth last).
The resulting list is the request-path execution order, outermost
middleware first. -/
def appMiddlewareStack : List Middleware :=
  addMiddleware Middleware.auth (addMiddleware Middleware.logging
    (addMiddleware Middleware.securityHeaders (addMiddleware Middleware.rateLimit
      (addMiddleware Middleware.timing (addMiddleware Middleware.session
        (addMiddleware Middleware.trustedHost (addMiddleware Middleware.gzip
          (addMiddleware Middleware.cors []))))))))

/-- Position of a middleware on the request path (0 = outermost). -/
def execIndex (m : Middleware) : Nat :=
  appMiddlewareStack.findIdx (fun x => x = m)

/-- Modelled from the spec: the ordering the specification asserts for
the way in — security-headers, then request-timing, then rate-limit,
then authentication (so the rate-limit check runs before auth). -/
def specClaimedPipelineOrder : Prop :=
  execIndex Middleware.securityHeaders < execIndex Middleware.timing ∧
  execIndex Middleware.timing < execIndex Middleware.rateLimit ∧
  execIndex Middleware.rateLimit < execIndex Middleware.auth

/- ## Authentication (09_authentication.py) -/

/-- `ACCESS_TOKEN_EXPIRE_MINUTES = 30` from `09_authentication.py`. -/
def ACCESS_TOKEN_EXPIRE_MINUTES : Int := 30

/-- `REFRESH_TOKEN_EXPIRE_DAYS = 7` from `09_authentication.py`. -/
def REFRESH_TOKEN_EXPIRE_DAYS : Int := 7

/-- Claims carried by a JWT issued by this app: the `sub`, `scopes`,
`type` and `exp` entries of the encoded payload dictionary. -/
structure JwtPayload where
  sub : Option String
  scopes : List String
  typ : Option String
  exp : Int
deriving DecidableEq

/-- A candidate token string as seen by `jose.jwt.decode`: either a
well-formed token signed with the process `SECRET_KEY`, or anything else
(malformed or carrying a bad signature), which makes `decode` raise
`JWTError`. -/
inductive Jwt where
  | signed (payload : JwtPayload)
  | malformedOrBadSignature
deriving DecidableEq

/-- `jose.jwt.decode` at time `now`: returns the payload of a signed,
unexpired token; malformed input, bad signatures and expired tokens all
raise `JWTError`, which `verify_token` catches, so they are modelled as
`none`. -/
def jwtDecode (now : Int) : Jwt → Option JwtPayload
  | Jwt.signed p => if p.exp ≤ now then none else some p
  | Jwt.malformedOrBadSignature => none

/-- The `TokenData` pydantic model. -/
structure TokenData where
  email : String
  scopes : List String
deriving DecidableEq

/-- `create_access_token`: payload `{sub, scopes}` extended with
`exp = now + expires_delta` and `type = "access"`. -/
def create_access_token (now : Int) (sub : String) (scopes : List String)
    (expiresDelta : Int) : Jwt :=
  Jwt.signed ⟨some sub, scopes, some "access", now + expiresDelta⟩

/-- `create_refresh_token`: payload `{sub}` (no scopes entry, so decode
yields the default `[]`) extended with `exp = now + 7 days` and
`type = "refresh"`. -/
def create_refresh_token (now : Int) (sub : String) : Jwt :=
  Jwt.signed ⟨some sub, [], some "refresh", now + REFRESH_TOKEN_EXPIRE_DAYS * 24 * 60 * 60⟩

/-- `verify_token` from `09_authentication.py` lines 235-261: revoked
tokens and any `JWTError` from decoding yield `None`; a missing `sub` or
a `type` claim different from the expected kind yields `None`; otherwise
the `TokenData` is returned. -/
def verify_token (now : Int) (revoked : List Jwt) (token : Jwt)
    (token_type : String) : Option TokenData :=
  if token ∈ revoked then none
  else
    match jwtDecode now token with
    | none => none
    | some payload =>
      match payload.sub with
      | none => none
      | some email =>
        if payload.typ = some token_type then some ⟨email, payload.scopes⟩ else none

/-- The `UserInDB` pydantic model (password hashes are plain strings;
the bcrypt hash/verify pair is passed in as a function parameter). -/
structure UserInDB where
  id : Nat
  email : String
  full_name : String
  hashed_password : String
  is_active : Bool
  last_login : Option Int
  roles : List String
  scopes : List String
deriving DecidableEq

/-- `get_user_by_email`: linear scan of `users_db.values()` in insertion
order, first match wins. -/
def get_user_by_email (db : List UserInDB) (email : String) : Option UserInDB :=
  db.find? (fun u => u.email = email)

/-- `authenticate_user`: look the user up by email, then check the
password with `pwd_context.verify` (passed in as `verify`); both failure
modes return `None`. -/
def authenticate_user (verify : String → String → Bool) (db : List UserInDB)
    (email password : String) : Option UserInDB :=
  match get_user_by_email db email with
  | none => none
  | some user => if verify password user.hashed_password then some user else none

/-- Typed rejections raised by the auth endpoints (each is an
`HTTPException` with status 401 and the quoted detail string). -/
inductive AuthError where
  | invalidCredentials
  | invalidRefreshToken
  | userNotFound
deriving DecidableEq

/-- The `Token` response model. -/
structure Token where
  access_token : Jwt
  refresh_token : Jwt
  token_type : String
  expires_in : Int
  scopes : List String
deriving DecidableEq

/-- Helper for the `user.last_login = datetime.now()` mutation in `login`. -/
def setLastLogin (u : UserInDB) (now : Int) : UserInDB :=
  ⟨u.id, u.email, u.full_name, u.hashed_password, u.is_active, some now, u.roles, u.scopes⟩

/-- The `POST /auth/login` endpoint: authenticate, and either raise 401
"Incorrect email or password" (leaving the database untouched) or stamp
`last_login` and return a fresh access/refresh token pair. -/
def login (verify : String → String → Bool) (db : List UserInDB) (now : Int)
    (email password : String) : Except AuthError Token × List UserInDB :=
  match authenticate_user verify db email password with
  | none => (Except.error AuthError.invalidCredentials, db)
  | some user =>
    (Except.ok
      ⟨create_access_token now user.email user.scopes (ACCESS_TOKEN_EXPIRE_MINUTES * 60),
        create_refresh_token now user.email, "bearer",
        ACCESS_TOKEN_EXPIRE_MINUTES * 60, user.scopes⟩,
      db.map (fun u => if u.id = user.id then setLastLogin u now else u))

/-- The `POST /auth/refresh` endpoint (`refresh_token` in the source):
verify the presented token with expected kind "refresh", look up the
user, and issue a fresh token pair. The revocation set is returned
unchanged on every path — the source never touches `revoked_tokens`. -/
def refresh_endpoint (db : List UserInDB) (now : Int) (revoked : List Jwt)
    (token : Jwt) : Except AuthError Token × List Jwt :=
  match verify_token now revoked token "refresh" with
  | none => (Except.error AuthError.invalidRefreshToken, revoked)
  | some tokenData =>
    match get_user_by_email db tokenData.email with
    | none => (Except.error AuthError.userNotFound, revoked)
    | some user =>
      (Except.ok
        ⟨create_access_token now user.email user.scopes (ACCESS_TOKEN_EXPIRE_MINUTES * 60),
          create_refresh_token now user.email, "bearer",
          ACCESS_TOKEN_EXPIRE_MINUTES * 60, user.scopes⟩,
        revoked)

/-- The `POST /auth/logout` endpoint: the body only logs and returns a
success message — `revoked_tokens` is not modified (the source comment
reads "In a real application, you would revoke the token"). -/
def logout (revoked : List Jwt) (_user : UserInDB) : String × List Jwt :=
  ("Successfully logged out", revoked)

/-- Discriminator used to state that a refresh call succeeded. -/
def refreshIsOk : Except AuthError Token → Bool
  | Except.ok _ => true
  | Except.error _ => false

/-- Concrete stand-in for `get_password_hash` in witnesses. -/
def demoHash (p : String) : String := "bcrypt-sim:" ++ p

/-- Concrete stand-in for `pwd_context.verify` matching `demoHash`. -/
def demoVerify (plain hashed : String) : Bool := hashed = demoHash plain

/-- The seeded admin record of `users_db`. -/
def demoAdmin : UserInDB :=
  ⟨1, "admin@example.com", "Admin User", demoHash "admin123", true, none,
    ["admin"], ["read", "write", "admin"]⟩

/-- The seeded regular-user record of `users_db`. -/
def demoRegularUser : UserInDB :=
  ⟨2, "user@example.com", "Regular User", demoHash "user123", true, none,
    ["user"], ["read", "write"]⟩

/-- The seeded `users_db` contents in insertion order. -/
def demoDb : List UserInDB := [demoAdmin, demoRegularUser]

/-- A refresh token for the admin issued at time 0. -/
def demoRefreshToken : Jwt := create_refresh_token 0 "admin@example.com"

/-- An access token for the admin issued at time 0. -/
def demoAccessToken : Jwt :=
  create_access_token 0 "admin@example.com" ["read", "write", "admin"]
    (ACCESS_TOKEN_EXPIRE_MINUTES * 60)

/- ## Background tasks (12_background_tasks.py) -/

/-- The `EmailRequest` pydantic model (`toAddr` models the source field
`to`, which is a reserved word here). -/
structure EmailRequest where
  toAddr : String
  subject : String
  body : String
  cc : List String
  bcc : List String
deriving DecidableEq

/-- Result payload stored on task completion; the email worker stores
the dictionary with message, recipient (`to`), subject and send time. -/
inductive TaskResult where
  | emailResult (message toAddr subject : String) (sent_at : Int)
deriving DecidableEq

/-- The `TaskStatus` dataclass. -/
structure TaskStatus where
  task_id : String
  status : String
  created_at : Int
  started_at : Option Int
  completed_at : Option Int
  progress : Rat
  result : Option TaskResult
  error : Option String
  metadata : List (String × String)
deriving DecidableEq

/-- The keyword arguments accepted by `update_task_status`: an outer
`none` means the keyword was not passed at the call site. -/
structure TaskUpdate where
  progress : Option Rat
  result : Option (Option TaskResult)
  error : Option (Option String)
deriving DecidableEq

/-- The field mutations of `update_task_status` on a found task:
`status` is overwritten unconditionally; `started_at` is stamped when
entering "running" for the first time; `completed_at` is stamped on
"completed"/"failed"; each provided keyword overwrites its field. -/
def applyUpdate (now : Int) (t : TaskStatus) (status : String) (k : TaskUpdate) :
    TaskStatus :=
  ⟨t.task_id, status, t.created_at,
    if status = "running" ∧ t.started_at = none then some now else t.started_at,
    if status = "completed" ∨ status = "failed" then some now else t.completed_at,
    k.progress.getD t.progress, k.result.getD t.result, k.error.getD t.error,
    t.metadata⟩

/-- `update_task_status` from `12_background_tasks.py` lines 105-124:
if the id is present in `task_storage` the task is mutated in place,
otherwise nothing at all happens. -/
def update_task_status (now : Int) (storage : List (String × TaskStatus))
    (task_id status : String) (k : TaskUpdate) : List (String × TaskStatus) :=
  if storage.any (fun e => e.1 = task_id) then
    storage.map (fun e => if e.1 = task_id then (e.1, applyUpdate now e.2 status k) else e)
  else storage

/-- Python truthiness of the `error` argument in `log_task_completion`
(`None` and the empty string are falsy). -/
def errTruthy : Option String → Bool
  | none => false
  | some s => !(s == "")

/-- `log_task_completion`: route to a "failed" update carrying the error
string, or to a "completed" update carrying the result. -/
def log_task_completion (now : Int) (storage : List (String × TaskStatus))
    (task_id : String) (result : Option TaskResult) (error : Option String) :
    List (String × TaskStatus) :=
  if errTruthy error then
    update_task_status now storage task_id "failed" ⟨none, none, some error⟩
  else
    update_task_status now storage task_id "completed" ⟨none, some result, none⟩

/-- Python dictionary assignment `task_storage[task_id] = v`: overwrite
the entry when the key exists, otherwise append it. -/
def dictSet (storage : List (String × TaskStatus)) (key : String) (v : TaskStatus) :
    List (String × TaskStatus) :=
  if storage.any (fun e => e.1 = key) then
    storage.map (fun e => if e.1 = key then (key, v) else e)
  else storage ++ [(key, v)]

/-- The fresh `TaskStatus` record created by the `POST /send-email`
handler: dataclass defaults give status "pending", progress 0 and empty
result/error, with the email metadata attached. -/
def newEmailTask (now : Int) (task_id : String) (req : EmailRequest) : TaskStatus :=
  ⟨task_id, "pending", now, none, none, 0, none, none,
    [("type", "email"), ("to", req.toAddr)]⟩

/-- The `POST /send-email` endpoint: store a fresh pending task under the
generated id (passed in, standing for `uuid.uuid4()`) and return the
response body immediately. -/
def send_email (now : Int) (storage : List (String × TaskStatus)) (task_id : String)
    (req : EmailRequest) : (String × String × String) × List (String × TaskStatus) :=
  (("Email sending started", task_id, "queued"),
    dictSet storage task_id (newEmailTask now task_id req))

/-- The `send_email_task` worker on its success path (nothing in its
`try` block can raise): four "running" progress updates at 0.1, 0.3,
0.6, 0.9, then `log_task_completion` with the result dictionary.
`t1`-`t5` are the clock readings at the five updates. -/
def send_email_task (storage : List (String × TaskStatus)) (req : EmailRequest)
    (task_id : String) (t1 t2 t3 t4 t5 : Int) : List (String × TaskStatus) :=
  let s1 := update_task_status t1 storage task_id "running" ⟨some (mkRat 1 10), none, none⟩
  let s2 := update_task_status t2 s1 task_id "running" ⟨some (mkRat 3 10), none, none⟩
  let s3 := update_task_status t3 s2 task_id "running" ⟨some (mkRat 6 10), none, none⟩
  let s4 := update_task_status t4 s3 task_id "running" ⟨some (mkRat 9 10), none, none⟩
  log_task_completion t5 s4 task_id
    (some (TaskResult.emailResult "Email sent successfully" req.toAddr req.subject t5)) none

/-- The `GET /task-status/{task_id}` lookup (`none` models the 404). -/
def get_task_status (storage : List (String × TaskStatus)) (task_id : String) :
    Option TaskStatus :=
  (storage.find? (fun e => e.1 = task_id)).map Prod.snd

/-- A concrete email request for witnesses. -/
def demoEmailReq : EmailRequest := ⟨"user@example.com", "Test", "Hello", [], []⟩

/-- A concrete task already in the terminal "completed" state. -/
def demoCompletedTask : TaskStatus :=
  ⟨"t1", "completed", 0, some 1, some 4, 1,
    some (TaskResult.emailResult "Email sent successfully" "user@example.com" "Test" 4),
    none, []⟩

/-- Seven check times inside one 60-second window, for witnesses. -/
def c1Times : List Int := [0, 1, 2, 3, 4, 5, 6]

/- ## Theorems -/

/-- Pruning is the identity on a storage whose entries are all strictly
inside the window of the check time. -/
theorem filter_window_eq_self (period now : Int) (storage : List Int)
    (h : ∀ a ∈ storage, now - period < a) :
    storage.filter (fun ts => now - period < ts) = storage := by
  apply List.filter_eq_self.mpr
  intro a ha
  exact decide_eq_true (h a ha)

/-- Closed form for a run of rate-limit checks whose times all lie
within one window of each other and of the initial storage: every check
admits while the window has room, after which every check rejects with
`retryAfter = period`, and only admitted checks append their time. -/
theorem runRateLimit_closed_form (cfg : RateLimitConfig) :
    ∀ times storage : List Int,
      storage.length ≤ cfg.calls →
      (∀ t ∈ times, ∀ a ∈ storage, t - cfg.period < a) →
      (∀ t ∈ times, ∀ s ∈ times, t - cfg.period < s) →
      runRateLimit cfg storage times =
        (admitsThenRejects cfg.calls cfg.period storage.length times.length,
          storage ++ times.take (cfg.calls - storage.length)) := by
  intro times
  induction times with
  | nil =>
    intro storage _ _ _
    simp [runRateLimit, admitsThenRejects]
  | cons t rest ih =>
    intro storage hlen hfresh hwin
    have hfilter : storage.filter (fun ts => t - cfg.period < ts) = storage :=
      filter_window_eq_self cfg.period t storage (hfresh t (List.mem_cons_self _ _))
    have hfresh' : ∀ s ∈ rest, ∀ a ∈ storage, s - cfg.period < a :=
      fun s hs => hfresh s (List.mem_cons_of_mem _ hs)
    have hwin' : ∀ s ∈ rest, ∀ u ∈ rest, s - cfg.period < u :=
      fun s hs u hu =>
        hwin s (List.mem_cons_of_mem _ hs) u (List.mem_cons_of_mem _ hu)
    by_cases hc : cfg.calls ≤ storage.length
    · have hdisp : rateLimitDispatch cfg t storage =
          (RateLimitResult.rejected cfg.period, storage) := by
        rw [rateLimitDispatch, hfilter, rateLimitCheck, if_pos hc]
      have h0 : cfg.calls - storage.length = 0 := Nat.sub_eq_zero_of_le hc
      simp only [runRateLimit, hdisp,
        ih storage hlen hfresh' hwin', List.length_cons]
      rw [admitsThenRejects, if_neg (Nat.not_lt.mpr hc)]
      simp [h0]
    · have hlt : storage.length < cfg.calls := Nat.lt_of_not_le hc
      have hdisp : rateLimitDispatch cfg t storage =
          (RateLimitResult.admitted (cfg.calls - (storage.length + 1)),
            storage ++ [t]) := by
        rw [rateLimitDispatch, hfilter, rateLimitCheck, if_neg hc]
      have hlen' : (storage ++ [t]).length ≤ cfg.calls := by
        simp only [List.length_append, List.length_singleton]
        omega
      have hfresh2 : ∀ s ∈ rest, ∀ a ∈ storage ++ [t], s - cfg.period < a := by
        intro s hs a ha
        rcases List.mem_append.mp ha with h | h
        · exact hfresh' s hs a h
        · have ha2 : a = t := by simpa using h
          rw [ha2]
          exact hwin s (List.mem_cons_of_mem _ hs) t (List.mem_cons_self _ _)
      simp only [runRateLimit, hdisp,
        ih (storage ++ [t]) hlen' hfresh2 hwin', List.length_cons,
        List.length_append, List.length_singleton]
      rw [admitsThenRejects, if_pos hlt]
      have hsub : cfg.calls - storage.length = (cfg.calls - (storage.length + 1)) + 1 := by
        omega
      rw [hsub, List.take_succ_cons]
      simp

/-- C1: for a single client under configuration `maxRequests = calls`,
`windowSeconds = period`, a sequence of checks all falling within one
window of length `period` admits exactly the first `calls` checks and
rejects every later check with `retryAfter = period > 0`; a rejected
check does not append the client timestamp, so the final storage holds
only the first `calls` check times. -/
theorem rateLimiter_admits_first_calls_then_rejects (cfg : RateLimitConfig)
    (times : List Int) (hperiod : 0 < cfg.period)
    (hwin : ∀ t ∈ times, ∀ s ∈ times, t - cfg.period < s) :
    (runRateLimit cfg [] times).1 =
        admitsThenRejects cfg.calls cfg.period 0 times.length ∧
    (runRateLimit cfg [] times).2 = times.take cfg.calls ∧
    0 < cfg.period := by
  have h := runRateLimit_closed_form cfg times [] (by simp) (by simp) hwin
  refine ⟨?_, ?_, hperiod⟩ <;> rw [h] <;> simp

/-- Witness for C1: with `maxRequests = 5, windowSeconds = 60` and seven
checks at seconds 0..6, the first five admit, the sixth and seventh
reject with `retryAfter = 60`, and only the first five times are kept. -/
theorem rateLimiter_admits_first_calls_then_rejects_witness :
    (runRateLimit ⟨5, 60⟩ [] c1Times).1 = admitsThenRejects 5 60 0 7 ∧
    (runRateLimit ⟨5, 60⟩ [] c1Times).2 = c1Times.take 5 ∧
    (0 : Int) < 60 :=
  rateLimiter_admits_first_calls_then_rejects ⟨5, 60⟩ c1Times (by decide) (by decide)

/-- C9: after a dispatch at time `now` on a storage that respects the
size bound, every retained timestamp is strictly newer than
`now - period` and the number of retained timestamps never exceeds the
configured `calls` limit. -/
theorem rateLimit_window_invariant (cfg : RateLimitConfig) (now : Int)
    (storage : List Int) (hperiod : 0 < cfg.period)
    (hlen : storage.length ≤ cfg.calls) :
    (∀ a ∈ (rateLimitDispatch cfg now storage).2, now - cfg.period < a) ∧
    (rateLimitDispatch cfg now storage).2.length ≤ cfg.calls := by
  rw [rateLimitDispatch, rateLimitCheck]
  have hmem : ∀ a ∈ storage.filter (fun ts => now - cfg.period < ts),
      now - cfg.period < a := by
    intro a ha
    exact of_decide_eq_true (List.mem_filter.mp ha).2
  have hle : (storage.filter (fun ts => now - cfg.period < ts)).length ≤ storage.length :=
    List.length_filter_le _ _
  by_cases hc : cfg.calls ≤ (storage.filter (fun ts => now - cfg.period < ts)).length
  · rw [if_pos hc]
    exact ⟨hmem, le_trans hle hlen⟩
  · rw [if_neg hc]
    constructor
    · intro a ha
      rcases List.mem_append.mp ha with h | h
      · exact hmem a h
      · have : a = now := by simpa using h
        subst this
        omega
    · simp only [List.length_append, List.length_singleton]
      omega

/-- Witness for C9: a dispatch at time 5 over storage `[1, 2]` with
limit 2 per 10 seconds keeps only in-window timestamps and at most 2. -/
theorem rateLimit_window_invariant_witness :
    (∀ a ∈ (rateLimitDispatch ⟨2, 10⟩ 5 [1, 2]).2, (5 : Int) - 10 < a) ∧
    (rateLimitDispatch ⟨2, 10⟩ 5 [1, 2]).2.length ≤ 2 :=
  rateLimit_window_invariant ⟨2, 10⟩ 5 [1, 2] (by decide) (by decide)

/-- C4 counterexample: the ordering asserted by the specification for
the request path — security-headers, then timing, then rate-limit, then
authentication — does not hold for the stack built in
`11_middleware.py`: `add_middleware` prepends, so the most recently
added middleware (authentication) is outermost. -/
theorem pipeline_spec_order_false : ¬ specClaimedPipelineOrder := by
  unfold specClaimedPipelineOrder
  decide

/-- C4 (amended): the request-path execution order of the stack built in
`11_middleware.py` is the reverse of registration order — authentication
outermost, then logging, security-headers, rate-limit, timing, session,
trusted-host, gzip, cors — and in particular the authentication
middleware runs before the rate-limit check. -/
theorem pipeline_actual_order :
    appMiddlewareStack =
      [Middleware.auth, Middleware.logging, Middleware.securityHeaders,
        Middleware.rateLimit, Middleware.timing, Middleware.session,
        Middleware.trustedHost, Middleware.gzip, Middleware.cors] ∧
    execIndex Middleware.auth < execIndex Middleware.rateLimit := by
  exact ⟨rfl, by decide⟩

/-- C2 counterexample: with the seeded users and a valid refresh token
for the admin, the first refresh succeeds but leaves the revocation set
empty, and a second refresh presenting the very same refresh token
succeeds as well, instead of failing as the specification demands. -/
theorem refresh_token_reuse_succeeds_cex :
    refreshIsOk (refresh_endpoint demoDb 100 [] demoRefreshToken).1 = true ∧
    (refresh_endpoint demoDb 100 [] demoRefreshToken).2 = [] ∧
    refreshIsOk
        (refresh_endpoint demoDb 100
          (refresh_endpoint demoDb 100 [] demoRefreshToken).2
          demoRefreshToken).1 = true := by
  decide

/-- C2 (amended): `refresh` never revokes the presented refresh token —
the revocation set is returned unchanged on every path, success or
failure — so a second refresh presenting the same refresh token returns
exactly the same outcome as the first instead of failing (the old
refresh token is not single-use). -/
theorem refresh_token_no_rotation (db : List UserInDB) (now : Int)
    (revoked : List Jwt) (token : Jwt) :
    (refresh_endpoint db now revoked token).2 = revoked ∧
    refresh_endpoint db now (refresh_endpoint db now revoked token).2 token =
      refresh_endpoint db now revoked token := by
  have h : (refresh_endpoint db now revoked token).2 = revoked := by
    unfold refresh_endpoint
    split
    · rfl
    · split <;> rfl
  exact ⟨h, by rw [h]⟩

/-- C3: evaluation of the code at the failing input — `logout` returns
its success message without adding anything to the revocation set, and
verifying the very same access token immediately afterwards still
succeeds instead of failing as revoked. -/
theorem logout_does_not_revoke :
    (logout [] demoAdmin).2 = [] ∧
    verify_token 100 (logout [] demoAdmin).2 demoAccessToken "access" =
      some ⟨"admin@example.com", ["read", "write", "admin"]⟩ := by
  decide

/-- C7: for every candidate token, revocation set, clock and expected
kind, `verify_token` returns a value — `some` token data exactly when
the token is not revoked, decodes (well-signed and unexpired), carries a
`sub` claim and carries the expected `type` claim, and `none` in every
other case; all decode failures are caught, never propagated. -/
theorem verify_token_total_characterization (now : Int) (revoked : List Jwt)
    (token : Jwt) (kind : String) :
    (verify_token now revoked token kind = none ∨
      ∃ d, verify_token now revoked token kind = some d) ∧
    (∀ d, verify_token now revoked token kind = some d ↔
      token ∉ revoked ∧ ∃ p, jwtDecode now token = some p ∧
        p.sub = some d.email ∧ p.typ = some kind ∧ p.scopes = d.scopes) := by
  constructor
  · cases h : verify_token now revoked token kind with
    | none => exact Or.inl rfl
    | some d => exact Or.inr ⟨d, rfl⟩
  · intro d
    constructor
    · intro h
      unfold verify_token at h
      by_cases hrev : token ∈ revoked
      · rw [if_pos hrev] at h
        simp at h
      · rw [if_neg hrev] at h
        refine ⟨hrev, ?_⟩
        split at h
        · simp at h
        · rename_i p hdec
          split at h
          · simp at h
          · rename_i email hsub
            split at h
            · rename_i htyp
              have hd := Option.some.inj h
              subst hd
              exact ⟨p, hdec, hsub, htyp, rfl⟩
            · simp at h
    · rintro ⟨hrev, p, hdec, hsub, htyp, hsc⟩
      unfold verify_token
      rw [if_neg hrev]
      simp only [hdec, hsub, htyp]
      rw [if_pos trivial, hsc]

/-- C8: a login attempt with an email that matches no user record and a
login attempt with an existing email but a wrong password produce the
identical observable rejection — the 401 "Incorrect email or password"
— and both leave the user database unchanged, revealing nothing about
which part of the credential pair was wrong. -/
theorem login_failure_uniform_rejection (verify : String → String → Bool)
    (db : List UserInDB) (now : Int) (e1 p1 e2 p2 : String)
    (h1 : get_user_by_email db e1 = none)
    (h2 : ∃ u, get_user_by_email db e2 = some u ∧
      verify p2 u.hashed_password = false) :
    login verify db now e1 p1 = (Except.error AuthError.invalidCredentials, db) ∧
    login verify db now e2 p2 = (Except.error AuthError.invalidCredentials, db) := by
  obtain ⟨u, hu, hv⟩ := h2
  constructor
  · unfold login authenticate_user
    rw [h1]
  · unfold login authenticate_user
    rw [hu]
    simp [hv]

/-- Witness for C8: against the seeded database, a login with an unknown
email and a login as the admin with a wrong password both return the
same invalid-credentials rejection. -/
theorem login_failure_uniform_rejection_witness :
    login demoVerify demoDb 0 "nobody@example.com" "whatever" =
      (Except.error AuthError.invalidCredentials, demoDb) ∧
    login demoVerify demoDb 0 "admin@example.com" "wrong" =
      (Except.error AuthError.invalidCredentials, demoDb) :=
  login_failure_uniform_rejection demoVerify demoDb 0 "nobody@example.com"
    "whatever" "admin@example.com" "wrong" (by decide)
    ⟨demoAdmin, by decide, by decide⟩

/-- Lookup locates a freshly appended entry when its key was absent
from the storage before the append. -/
theorem find_append_fresh {storage : List (String × TaskStatus)} {tid : String}
    (habs : storage.any (fun e => e.1 = tid) = false) (v : TaskStatus) :
    (storage ++ [(tid, v)]).find? (fun e => e.1 = tid) = some (tid, v) := by
  induction storage with
  | nil => simp [List.find?]
  | cons a l ih =>
    simp only [List.any_cons, Bool.or_eq_false_iff] at habs
    obtain ⟨h1, h2⟩ := habs
    rw [List.cons_append, List.find?_cons_of_neg, ih h2]
    simp at h1 ⊢
    exact h1

/-- Entries whose key differs from the updated id are left untouched by
the per-entry rewrite of `update_task_status`. -/
theorem map_update_fresh {storage : List (String × TaskStatus)} {tid : String}
    (habs : storage.any (fun e => e.1 = tid) = false)
    (g : String × TaskStatus → String × TaskStatus) :
    storage.map (fun e => if e.1 = tid then g e else e) = storage := by
  induction storage with
  | nil => rfl
  | cons a l ih =>
    simp only [List.any_cons, Bool.or_eq_false_iff] at habs
    obtain ⟨h1, h2⟩ := habs
    have h1' : ¬(a.1 = tid) := by simpa using h1
    simp [h1', ih h2]

/-- `update_task_status` on a storage whose only entry for `tid` is a
freshly appended one rewrites exactly that entry. -/
theorem update_append_fresh {storage : List (String × TaskStatus)} {tid : String}
    (habs : storage.any (fun e => e.1 = tid) = false)
    (now : Int) (status : String) (k : TaskUpdate) (v : TaskStatus) :
    update_task_status now (storage ++ [(tid, v)]) tid status k =
      storage ++ [(tid, applyUpdate now v status k)] := by
  unfold update_task_status
  have hany : ((storage ++ [(tid, v)]).any (fun e => e.1 = tid)) = true := by
    simp [List.any_append]
  rw [if_pos hany, List.map_append, map_update_fresh habs]
  simp

/-- `log_task_completion` with no error routes to the "completed"
update carrying the result. -/
theorem log_none_error (now : Int) (storage : List (String × TaskStatus))
    (task_id : String) (result : Option TaskResult) :
    log_task_completion now storage task_id result none =
      update_task_status now storage task_id "completed" ⟨none, some result, none⟩ :=
  rfl

/-- C10: a status update addressed to a task id that is not present in
the registry is a silent no-op — the storage is returned entirely
unchanged and no error is raised — and the same holds for completion
logging, which routes through the same update. -/
theorem update_task_status_absent_noop (now : Int)
    (storage : List (String × TaskStatus)) (task_id status : String)
    (k : TaskUpdate)
    (habs : storage.any (fun e => e.1 = task_id) = false) :
    update_task_status now storage task_id status k = storage ∧
    (∀ result error,
      log_task_completion now storage task_id result error = storage) := by
  have hbase : ∀ st k', update_task_status now storage task_id st k' = storage := by
    intro st k'
    unfold update_task_status
    rw [habs]
    simp
  refine ⟨hbase status k, ?_⟩
  intro r e
  unfold log_task_completion
  by_cases h : errTruthy e = true
  · rw [if_pos h]
    exact hbase _ _
  · rw [if_neg h]
    exact hbase _ _

/-- Witness for C10: updating and completion-logging an unknown id over
a one-task registry leave the registry unchanged. -/
theorem update_task_status_absent_noop_witness :
    update_task_status 5 [("t1", demoCompletedTask)] "t2" "running"
        ⟨some (mkRat 1 2), none, none⟩ = [("t1", demoCompletedTask)] ∧
    log_task_completion 5 [("t1", demoCompletedTask)] "t2" none none =
      [("t1", demoCompletedTask)] :=
  ⟨(update_task_status_absent_noop 5 [("t1", demoCompletedTask)] "t2" "running"
      ⟨some (mkRat 1 2), none, none⟩ (by decide)).1,
    (update_task_status_absent_noop 5 [("t1", demoCompletedTask)] "t2" "running"
      ⟨some (mkRat 1 2), none, none⟩ (by decide)).2 none none⟩

/-- C5 counterexample: a later status-update call on a task already in
the terminal "completed" state does not leave the record unchanged — it
overwrites the status back to "running" and the progress to 0.5. -/
theorem terminal_task_mutated_cex :
    update_task_status 10 [("t1", demoCompletedTask)] "t1" "running"
        ⟨some (mkRat 1 2), none, none⟩ ≠ [("t1", demoCompletedTask)] ∧
    update_task_status 10 [("t1", demoCompletedTask)] "t1" "running"
        ⟨some (mkRat 1 2), none, none⟩ =
      [("t1", ⟨"t1", "running", 0, some 1, some 4, mkRat 1 2,
        some (TaskResult.emailResult "Email sent successfully" "user@example.com"
          "Test" 4), none, []⟩)] := by
  decide

/-- C5 (amended): `update_task_status` does not treat terminal states as
final — a later status-update call on a task whose status is
"completed" or "failed" mutates the record, overwriting its status with
the requested value and applying the provided field updates. -/
theorem update_task_status_ignores_terminal (now : Int) (task_id : String)
    (t : TaskStatus) (status : String) (k : TaskUpdate)
    (hterm : t.status = "completed" ∨ t.status = "failed") :
    update_task_status now [(task_id, t)] task_id status k =
      [(task_id, applyUpdate now t status k)] ∧
    (applyUpdate now t status k).status = status := by
  constructor
  · unfold update_task_status
    simp
  · rfl

/-- Witness for C5: marking the completed demo task "failed" with an
error message rewrites the stored record and sets its status. -/
theorem update_task_status_ignores_terminal_witness :
    update_task_status 10 [("t1", demoCompletedTask)] "t1" "failed"
        ⟨none, none, some (some "boom")⟩ =
      [("t1", applyUpdate 10 demoCompletedTask "failed"
        ⟨none, none, some (some "boom")⟩)] ∧
    (applyUpdate 10 demoCompletedTask "failed"
      ⟨none, none, some (some "boom")⟩).status = "failed" :=
  update_task_status_ignores_terminal 10 "t1" demoCompletedTask "failed"
    ⟨none, none, some (some "boom")⟩ (Or.inl rfl)

/-- C6 counterexample: submitting an email and running the worker to
successful completion leaves the task with status "completed" and a
non-null result, but with progress 0.9 — the final completion update
passes only the result, so progress is never set to 1.0. -/
theorem email_task_final_progress_cex :
    (get_task_status
        (send_email_task (send_email 0 [] "task-1" demoEmailReq).2 demoEmailReq
          "task-1" 1 2 3 4 5) "task-1").map TaskStatus.progress = some (mkRat 9 10) ∧
    ¬((get_task_status
        (send_email_task (send_email 0 [] "task-1" demoEmailReq).2 demoEmailReq
          "task-1" 1 2 3 4 5) "task-1").map TaskStatus.progress = some 1) ∧
    (get_task_status
        (send_email_task (send_email 0 [] "task-1" demoEmailReq).2 demoEmailReq
          "task-1" 1 2 3 4 5) "task-1").map TaskStatus.status = some "completed" ∧
    (get_task_status
        (send_email_task (send_email 0 [] "task-1" demoEmailReq).2 demoEmailReq
          "task-1" 1 2 3 4 5) "task-1").map TaskStatus.result =
      some (some (TaskResult.emailResult "Email sent successfully"
        "user@example.com" "Test" 5)) := by
  decide

/-- C6 (amended): submitting an email with a fresh task id immediately
stores a task with status "pending"; after the worker's successful run
the stored task has status "completed", started/completed timestamps, a
non-null result — and progress 0.9, the last running-phase value, not
1.0. -/
theorem email_task_lifecycle (storage : List (String × TaskStatus))
    (req : EmailRequest) (tid : String) (now t1 t2 t3 t4 t5 : Int)
    (habs : storage.any (fun e => e.1 = tid) = false) :
    (send_email now storage tid req).1.2.1 = tid ∧
    get_task_status (send_email now storage tid req).2 tid =
      some (newEmailTask now tid req) ∧
    (newEmailTask now tid req).status = "pending" ∧
    get_task_status
        (send_email_task (send_email now storage tid req).2 req tid t1 t2 t3 t4 t5)
        tid =
      some ⟨tid, "completed", now, some t1, some t5, mkRat 9 10,
        some (TaskResult.emailResult "Email sent successfully" req.toAddr
          req.subject t5),
        none, [("type", "email"), ("to", req.toAddr)]⟩ := by
  have hset : (send_email now storage tid req).2 =
      storage ++ [(tid, newEmailTask now tid req)] := by
    unfold send_email dictSet
    rw [habs]
    simp
  refine ⟨rfl, ?_, rfl, ?_⟩
  · rw [hset]
    unfold get_task_status
    rw [find_append_fresh habs]
    rfl
  · rw [hset]
    simp only [send_email_task]
    rw [update_append_fresh habs, update_append_fresh habs, update_append_fresh habs,
      update_append_fresh habs, log_none_error, update_append_fresh habs]
    unfold get_task_status
    rw [find_append_fresh habs]
    rfl

/-- Witness for C6 (amended): the concrete run behind the counterexample,
obtained from the general lifecycle theorem. -/
theorem email_task_lifecycle_witness :
    (send_email 0 [] "task-1" demoEmailReq).1.2.1 = "task-1" ∧
    get_task_status (send_email 0 [] "task-1" demoEmailReq).2 "task-1" =
      some (newEmailTask 0 "task-1" demoEmailReq) ∧
    (newEmailTask 0 "task-1" demoEmailReq).status = "pending" ∧
    get_task_status
        (send_email_task (send_email 0 [] "task-1" demoEmailReq).2 demoEmailReq
          "task-1" 1 2 3 4 5) "task-1" =
      some ⟨"task-1", "completed", 0, some 1, some 5, mkRat 9 10,
        some (TaskResult.emailResult "Email sent successfully" "user@example.com"
          "Test" 5),
        none, [("type", "email"), ("to", "user@example.com")]⟩ :=
  email_task_lifecycle [] demoEmailReq "task-1" 0 1 2 3 4 5 rfl
